import Mathlib

/-!
Shallow embedding of the order/product services
(`src/backend-engineer/order_service/main.py` and
`src/backend-engineer/product_service/main.py`) and proofs about the
inventory-reservation protocol, authentication, and order persistence.

Conventions of the embedding:
* database integers are `Int`; stock is a finite map `Int → Option Int`
  (product id to available quantity; `none` = row absent);
* backoff delays are modelled in milliseconds (`0.2s, 0.5s, 1.0s` become
  `200, 500, 1000`), since only their identity and order matter;
* the third-party JWT decoder (`jose.jwt.decode`) is an external library,
  modelled by its documented behaviour: it either raises `JWTError`
  (malformed token, invalid signature, expired token) — `Except.error ()` —
  or returns a payload whose `sub` claim is an `Option String`;
* RabbitMQ publishing is modelled by a boolean `publishOk` environment flag
  (whether the broker interaction succeeds) together with the list of
  events actually delivered to the exchange;
* database insert failure is modelled by a boolean `insertOk` environment
  flag (asyncpg raising on `INSERT`).
-/

/-- Outcome of the product service stock check (ephemeral reservation
outcome of the data model). -/
inductive ServerOutcome
  | reserved
  | notFound
  | insufficientStock
  deriving DecidableEq, Repr

/-- `product_service/main.py` lines 172-178: the reservation core executed
against the stock record inside the acquired connection — `SELECT id,
quantity ... WHERE id=$1`; missing row → 404 path; `quantity < requested` →
409 path; otherwise `UPDATE ... SET quantity = quantity - $1`. Returns the
outcome and the stock map after the call. -/
def reserve_inventory_server (stock : Int → Option Int) (product_id quantity : Int) :
    ServerOutcome × (Int → Option Int) :=
  match stock product_id with
  | none => (.notFound, stock)
  | some q =>
      if q < quantity then (.insufficientStock, stock)
      else (.reserved, fun p => if p = product_id then some (q - quantity) else stock p)

/-- Result of `jose.jwt.decode`: `error` = `JWTError` raised (malformed,
invalid signature, or expired); `ok p` = decoded payload with `p` the value
of the `sub` claim (`none` when the claim is absent). -/
abbrev DecodeResult := Except Unit (Option String)

/-- `order_service/main.py` lines 81-94 (`get_current_user`): 401 when the
decoder raises `JWTError` or the payload's `sub` claim is `None`; otherwise
the subject string is the authenticated principal. Errors carry the HTTP
status code. -/
def get_current_user (decodeRes : DecodeResult) : Except Nat String :=
  match decodeRes with
  | .error _ => .error 401
  | .ok none => .error 401
  | .ok (some username) => .ok username

/-- `product_service/main.py` lines 92-105: identical verifier except the
guard is `if not username`, which also rejects an empty-string subject. -/
def get_current_user_product (decodeRes : DecodeResult) : Except Nat String :=
  match decodeRes with
  | .error _ => .error 401
  | .ok none => .error 401
  | .ok (some username) => if username = "" then .error 401 else .ok username

/-- What one attempt of the client's `client.post` observes:
`exn` = the transport raised (timeout, connection error);
`resp s` = an HTTP response with status code `s` came back. -/
inductive Attempt
  | exn
  | resp (statusCode : Nat)
  deriving DecidableEq, Repr

/-- Caller-visible outcome of `reserve_inventory` in the order service:
either it returns normally (`success`) or it raises
`HTTPException(statusCode)`. -/
inductive ClientOutcome
  | success
  | httpError (statusCode : Nat)
  deriving DecidableEq, Repr

/-- The `for delay in backoff` loop of `order_service/main.py` lines
122-136, transcribed branch by branch. `env i` is what attempt `i`
observes; `lastExc` tracks the Python `last_exc` variable (only its
nullness matters, since line 139 always raises 502). A `200` response
returns. A `404`/`409` response raises `HTTPException(status)` at line
133 — but that raise sits inside the `try`, so the `except Exception`
at line 134 catches it, records it in `last_exc`, and sleeps. Any other
response (e.g. 422 or a 5xx) matches neither `if`, so the body falls
through: no raise, no sleep, `last_exc` untouched. A transport exception
is caught, recorded, slept on. Returns (outcome, sleeps performed in ms,
number of HTTP attempts made). -/
def reserveClientLoop (env : Nat → Attempt) : Nat → List Nat → Bool →
    ClientOutcome × List Nat × Nat
  | _, [], lastExc => (if lastExc then .httpError 502 else .success, [], 0)
  | i, d :: ds, lastExc =>
    match env i with
    | .exn =>
        let (o, sl, n) := reserveClientLoop env (i + 1) ds true
        (o, d :: sl, n + 1)
    | .resp s =>
        if s = 200 then (.success, [], 1)
        else if s = 404 ∨ s = 409 then
          let (o, sl, n) := reserveClientLoop env (i + 1) ds true
          (o, d :: sl, n + 1)
        else
          let (o, sl, n) := reserveClientLoop env (i + 1) ds lastExc
          (o, sl, n + 1)

/-- `order_service/main.py` lines 116-139 (`reserve_inventory`): the loop
over the fixed backoff schedule `[0.2, 0.5, 1.0]` (milliseconds here),
starting with `last_exc = None`; afterwards `if last_exc: raise
HTTPException(502)`, else fall off the end and return `None`. -/
def reserve_inventory_client (env : Nat → Attempt) : ClientOutcome × List Nat × Nat :=
  reserveClientLoop env 0 [200, 500, 1000] false

/-- A domain event published to the bus (`type` discriminator plus
payload), as built at `order_service/main.py` lines 163-168 and
`product_service/main.py` line 186. -/
inductive EventMsg
  | orderCreated (username : String) (product_id quantity : Int)
  | inventoryReserved (product_id quantity : Int)
  deriving DecidableEq, Repr

/-- A row of `order_service.orders` as selected by the `RETURNING` clause
of the insert (`id, productname, product_id, quantity, username, status`). -/
structure OrderRow where
  id : Nat
  productname : String
  product_id : Int
  quantity : Int
  username : String
  rowStatus : String
  deriving DecidableEq, Repr

/-- The order table: the rows plus the id the sequence will assign next. -/
structure OrderState where
  nextId : Nat
  orders : List OrderRow
  deriving DecidableEq, Repr

/-- `order_service/main.py` lines 141-149 (`insert_order`): inserts the
row with the literal status `'CONFIRMED'` and returns it; the database
assigns the id. -/
def insert_order (st : OrderState) (productname : String) (product_id quantity : Int)
    (username : String) : OrderRow × OrderState :=
  let row : OrderRow :=
    { id := st.nextId, productname := productname, product_id := product_id,
      quantity := quantity, username := username, rowStatus := "CONFIRMED" }
  (row, { nextId := st.nextId + 1, orders := st.orders ++ [row] })

/-- `order_service/main.py` lines 151-176 (`publish_order_event`): the
whole broker interaction sits in one `try`; on success the event reaches
the exchange, on any failure only `logging.warning` runs. Returns the
events delivered and whether a warning was logged. -/
def publish_order_event (publishOk : Bool) (username : String)
    (product_id quantity : Int) : List EventMsg × Bool :=
  if publishOk then ([.orderCreated username product_id quantity], false)
  else ([], true)

/-- Everything `POST /orders` returns and mutates: the HTTP status, the
order table afterwards, the number of HTTP attempts the reservation client
made, the backoff sleeps it performed, the events delivered to the bus,
and whether a publish-failure warning was logged. -/
structure CreateOrderResult where
  httpStatus : Nat
  state : OrderState
  httpCalls : Nat
  sleeps : List Nat
  events : List EventMsg
  publishWarned : Bool
  deriving DecidableEq, Repr

/-- `order_service/main.py` lines 100-113 (`create_order`): FastAPI solves
the `get_current_user` dependency before the handler body runs, so a 401
there means no reservation attempt and no insert. Then `reserve_inventory`
(an `HTTPException` from it propagates to the exception handler with its
status), then `insert_order` (`insertOk = false` models asyncpg raising,
which FastAPI surfaces as a 500 with no row inserted), then the
best-effort `publish_order_event`. -/
def create_order (decodeRes : DecodeResult) (env : Nat → Attempt)
    (insertOk publishOk : Bool) (productname : String) (product_id quantity : Int)
    (st : OrderState) : CreateOrderResult :=
  match get_current_user decodeRes with
  | .error s => ⟨s, st, 0, [], [], false⟩
  | .ok user =>
    let (o, sleeps, calls) := reserve_inventory_client env
    match o with
    | .httpError s => ⟨s, st, calls, sleeps, [], false⟩
    | .success =>
      if insertOk then
        let (_, st') := insert_order st productname product_id quantity user
        let (evs, warned) := publish_order_event publishOk user product_id quantity
        ⟨200, st', calls, sleeps, evs, warned⟩
      else ⟨500, st, calls, sleeps, [], false⟩

/-- `order_service/main.py` lines 179-185 (`delete_order`): after the auth
dependency, `DELETE FROM order_service.orders WHERE id=$1` — the `user`
value is never consulted. 404 when no row matched (`DELETE 0`). -/
def delete_order (decodeRes : DecodeResult) (order_id : Nat) (st : OrderState) :
    Nat × OrderState :=
  match get_current_user decodeRes with
  | .error s => (s, st)
  | .ok _user =>
    let remaining := st.orders.filter (fun o => o.id ≠ order_id)
    if remaining.length = st.orders.length then (404, st)
    else (200, { st with orders := remaining })

/-- The argument carriers of an HTTP request to `POST /inventory/reserve`:
values present in the query string and values present in the
form-encoded body, separately, because FastAPI binds `product_id: int,
quantity: int` (bare scalar parameters without `Body(...)`) from the
query string only. -/
structure ReserveRequest where
  queryProductId : Option Int
  queryQuantity : Option Int
  bodyProductId : Option Int
  bodyQuantity : Option Int
  deriving DecidableEq, Repr

/-- The request the order service client actually sends
(`order_service/main.py` line 129): `client.post(reserve_url,
data={"product_id": ..., "quantity": ...})` — form-encoded body, no query
parameters. -/
def client_reserve_request (product_id quantity : Int) : ReserveRequest :=
  { queryProductId := none, queryQuantity := none,
    bodyProductId := some product_id, bodyQuantity := some quantity }

/-- `product_service/main.py` lines 170-192 (`reserve_inventory` route):
dependency auth first; then FastAPI binds `product_id` and `quantity`
from the query string — if either is absent there the request is rejected
with a 422 validation error (handler at lines 59-61) regardless of what
the body carries; then the stock check/decrement; then the best-effort
`InventoryReserved` publish inside its own `try` (lines 180-190), whose
failure is only logged. Returns (status, stock afterwards, events
delivered). -/
def reserve_endpoint (decodeRes : DecodeResult) (req : ReserveRequest)
    (publishOk : Bool) (stock : Int → Option Int) :
    Nat × (Int → Option Int) × List EventMsg :=
  match get_current_user_product decodeRes with
  | .error s => (s, stock, [])
  | .ok _user =>
    match req.queryProductId, req.queryQuantity with
    | some pid, some qty =>
        match reserve_inventory_server stock pid qty with
        | (.reserved, st') =>
            (200, st', if publishOk then [.inventoryReserved pid qty] else [])
        | (.notFound, _) => (404, stock, [])
        | (.insufficientStock, _) => (409, stock, [])
    | _, _ => (422, stock, [])

/-- Composed client-and-server reservation loop, used for the claims that
presuppose a reservation can genuinely succeed. `net i` tells whether
attempt `i` reaches the product service (otherwise the transport raises:
timeout or connection error). A delivered attempt runs the server's
check-then-decrement on the current stock, with the request arguments
assumed to bind on the server side (the faithful query/body binding
mismatch of the two services is treated separately, on
`reserve_endpoint`). The client handles the delivered status exactly as
in `reserveClientLoop`: 200 returns, 404/409 is raised, caught by the
client's own `except`, recorded and slept on. Returns (outcome, stock
afterwards, sleeps). -/
def sysReserveLoop (net : Nat → Bool) (product_id quantity : Int) :
    Nat → List Nat → Bool → (Int → Option Int) →
    ClientOutcome × (Int → Option Int) × List Nat
  | _, [], lastExc, stock => (if lastExc then .httpError 502 else .success, stock, [])
  | i, d :: ds, _lastExc, stock =>
    if net i then
      match reserve_inventory_server stock product_id quantity with
      | (.reserved, stock') => (.success, stock', [])
      | (.notFound, _) =>
          let (o, st, sl) := sysReserveLoop net product_id quantity (i + 1) ds true stock
          (o, st, d :: sl)
      | (.insufficientStock, _) =>
          let (o, st, sl) := sysReserveLoop net product_id quantity (i + 1) ds true stock
          (o, st, d :: sl)
    else
      let (o, st, sl) := sysReserveLoop net product_id quantity (i + 1) ds true stock
      (o, st, d :: sl)

/-- The composed reservation call over the client's backoff schedule. -/
def sys_reserve (net : Nat → Bool) (stock : Int → Option Int)
    (product_id quantity : Int) : ClientOutcome × (Int → Option Int) × List Nat :=
  sysReserveLoop net product_id quantity 0 [200, 500, 1000] false stock

/-- `POST /orders` composed with the product service stock mutation:
auth dependency, composed reservation, insert, best-effort publish.
Returns (status, stock afterwards, order table afterwards, events). -/
def create_order_sys (decodeRes : DecodeResult) (net : Nat → Bool)
    (insertOk publishOk : Bool) (productname : String) (product_id quantity : Int)
    (stock : Int → Option Int) (st : OrderState) :
    Nat × (Int → Option Int) × OrderState × List EventMsg :=
  match get_current_user decodeRes with
  | .error s => (s, stock, st, [])
  | .ok user =>
    let (o, stock', _) := sys_reserve net stock product_id quantity
    match o with
    | .httpError s => (s, stock', st, [])
    | .success =>
      if insertOk then
        let (_, st') := insert_order st productname product_id quantity user
        let (evs, _) := publish_order_event publishOk user product_id quantity
        (200, stock', st', evs)
      else (500, stock', st, [])

/-- An API operation of the order service that touches the orders table
(`POST /orders`, `DELETE /orders/{order_id}`; `GET /orders` only reads). -/
inductive OrderOp
  | create (decodeRes : DecodeResult) (env : Nat → Attempt) (insertOk publishOk : Bool)
      (productname : String) (product_id quantity : Int)
  | delete (decodeRes : DecodeResult) (order_id : Nat)

/-- Effect of one order-service operation on the orders table. -/
def applyOp (st : OrderState) : OrderOp → OrderState
  | .create d env iok pok pn pid qty => (create_order d env iok pok pn pid qty st).state
  | .delete d oid => (delete_order d oid st).2

/-- The orders table produced by a sequence of operations from a state. -/
def runOps (st : OrderState) : List OrderOp → OrderState
  | [] => st
  | op :: ops => runOps (applyOp st op) ops

/-- Initial order-service state: empty table. -/
def initOrderState : OrderState := { nextId := 0, orders := [] }

/-- Well-formedness of the orders table maintained by the service: every
row id is below the sequence value and ids are pairwise distinct. -/
def OrderState.Wf (st : OrderState) : Prop :=
  (∀ o ∈ st.orders, o.id < st.nextId) ∧ st.orders.Pairwise (fun a b => a.id ≠ b.id)

/-- Example stock table for concrete witnesses: product 42 has quantity 5,
nothing else exists. -/
def exStock : Int → Option Int := fun p => if p = 42 then some 5 else none

/-- Example order table for concrete instances: one order with id 1 owned
by user `alice`. -/
def exOrders : OrderState :=
  { nextId := 2,
    orders := [{ id := 1, productname := "Widget", product_id := 7, quantity := 1,
                 username := "alice", rowStatus := "CONFIRMED" }] }

/-- C3: sequential `reserveInventory(productId, quantity)` with positive
quantity — a missing product yields `NotFound` (never `InsufficientStock`)
with no stock change; an existing product with stock below the request
yields `InsufficientStock` with the stock unchanged; sufficient stock
yields success with the stock decreased by exactly the requested
quantity and every other product untouched. -/
theorem C3_server_reserve_cases (stock : Int → Option Int) (pid qty : Int)
    (_hpos : 0 < qty) :
    (stock pid = none →
      reserve_inventory_server stock pid qty = (.notFound, stock)) ∧
    (∀ q, stock pid = some q → q < qty →
      reserve_inventory_server stock pid qty = (.insufficientStock, stock)) ∧
    (∀ q, stock pid = some q → qty ≤ q →
      (reserve_inventory_server stock pid qty).1 = .reserved ∧
      (reserve_inventory_server stock pid qty).2 pid = some (q - qty) ∧
      ∀ p, p ≠ pid → (reserve_inventory_server stock pid qty).2 p = stock p) := by
  refine ⟨?_, ?_, ?_⟩
  · intro h
    unfold reserve_inventory_server
    rw [h]
  · intro q hq hlt
    unfold reserve_inventory_server
    rw [hq]
    simp [hlt]
  · intro q hq hle
    have hres : reserve_inventory_server stock pid qty =
        (.reserved, fun p => if p = pid then some (q - qty) else stock p) := by
      unfold reserve_inventory_server
      rw [hq]
      simp [not_lt.mpr hle]
    rw [hres]
    exact ⟨rfl, by simp, fun p hp => by simp [hp]⟩

/-- Witness for C3 at the spec scenario: stock of product 42 is 5;
reserve(42, 3) succeeds and leaves 2; a second reserve(42, 3) on the
resulting stock yields `InsufficientStock` and changes nothing;
reserve(99, 1) yields `NotFound`. -/
theorem C3_server_reserve_cases_witness :
    (0 : Int) < 3 ∧
    (reserve_inventory_server exStock 42 3).1 = .reserved ∧
    (reserve_inventory_server exStock 42 3).2 42 = some 2 ∧
    reserve_inventory_server (reserve_inventory_server exStock 42 3).2 42 3
      = (.insufficientStock, (reserve_inventory_server exStock 42 3).2) ∧
    reserve_inventory_server exStock 99 1 = (.notFound, exStock) := by
  have h1 := (C3_server_reserve_cases exStock 42 3 (by decide)).2.2 5 (by decide) (by decide)
  refine ⟨by decide, h1.1, ?_, ?_, ?_⟩
  · exact h1.2.1.trans (by decide)
  · exact (C3_server_reserve_cases (reserve_inventory_server exStock 42 3).2 42 3
      (by decide)).2.1 2 (h1.2.1.trans (by decide)) (by decide)
  · exact (C3_server_reserve_cases exStock 99 1 (by decide)).1 (by decide)

/-- C10: an existing product with (non-negative, per the data-model
invariant) available stock `q` and a requested quantity `qty ≤ 0` is not
rejected as invalid: the endpoint answers 200 "reserved" and the stock
becomes `q - qty`, so a zero quantity leaves the stock unchanged and a
negative quantity strictly increases it. -/
theorem C10_nonpositive_quantity_reserved (stock : Int → Option Int)
    (pid qty q : Int) (u : String) (publishOk : Bool) (hu : u ≠ "")
    (hq : stock pid = some q) (hq0 : 0 ≤ q) (hn : qty ≤ 0) :
    (reserve_endpoint (.ok (some u)) ⟨some pid, some qty, none, none⟩ publishOk stock).1
      = 200 ∧
    (reserve_inventory_server stock pid qty).1 = .reserved ∧
    (reserve_inventory_server stock pid qty).2 pid = some (q - qty) ∧
    q ≤ q - qty ∧ (qty < 0 → q < q - qty) ∧ (qty = 0 → q - qty = q) := by
  have hnlt : ¬ q < qty := not_lt.mpr (hn.trans hq0)
  have hres : reserve_inventory_server stock pid qty =
      (.reserved, fun p => if p = pid then some (q - qty) else stock p) := by
    unfold reserve_inventory_server
    rw [hq]
    simp [hnlt]
  refine ⟨?_, by rw [hres], by rw [hres]; simp, by omega, fun h => by omega,
    fun h => by omega⟩
  unfold reserve_endpoint get_current_user_product
  simp only [hu, if_false]
  rw [hres]

/-- Witness for C10: product 42 holds 5 units; a reservation of quantity
-2 by user alice answers 200 and raises the stock to 7. -/
theorem C10_nonpositive_quantity_reserved_witness :
    "alice" ≠ "" ∧ exStock 42 = some 5 ∧ (0 : Int) ≤ 5 ∧ (-2 : Int) ≤ 0 ∧
    (reserve_endpoint (.ok (some "alice")) ⟨some 42, some (-2), none, none⟩ true exStock).1
      = 200 ∧
    (reserve_inventory_server exStock 42 (-2)).2 42 = some 7 := by
  have h := C10_nonpositive_quantity_reserved exStock 42 (-2) 5 "alice" true
    (by decide) (by decide) (by decide) (by decide)
  exact ⟨by decide, by decide, by decide, by decide, h.1,
    h.2.2.1.trans (by decide)⟩

/-- C1 fails on the code: when every attempt of the reservation call draws
an HTTP 404 (or 409) response, the client raises
`HTTPException(404/409)` inside its own `try`, so its catch-all `except`
swallows it, sleeps the full backoff schedule, retries twice more, and
finally raises 502 — it never propagates 404/409 and never returns
without retrying. Evaluated here: three attempts, sleeps 0.2s/0.5s/1.0s,
outcome `HTTPException(502)`. -/
theorem C1_business_rejection_retried_then_502 :
    reserve_inventory_client (fun _ => .resp 404)
      = (.httpError 502, [200, 500, 1000], 3) ∧
    reserve_inventory_client (fun _ => .resp 409)
      = (.httpError 502, [200, 500, 1000], 3) := by
  exact ⟨by decide, by decide⟩

/-- C2 fails on the code: an HTTP 5xx response raises nothing and matches
neither `if`, so the loop body falls through without sleeping and without
recording `last_exc`; after three such attempts `last_exc` is still
`None`, `reserve_inventory` returns normally, and `create_order` inserts
the order row and reports 200 — instead of the claimed 502 abort with no
row. Evaluated at three straight HTTP 500 responses. -/
theorem C2_all_5xx_attempts_place_order :
    reserve_inventory_client (fun _ => .resp 500) = (.success, [], 3) ∧
    create_order (.ok (some "alice")) (fun _ => .resp 500) true true "Widget" 42 1
        initOrderState
      = ⟨200,
         { nextId := 1,
           orders := [{ id := 0, productname := "Widget", product_id := 42,
                        quantity := 1, username := "alice",
                        rowStatus := "CONFIRMED" }] },
         3, [], [.orderCreated "alice" 42 1], false⟩ := by
  exact ⟨by decide, by decide⟩

/-- C4 fails on the code: the client puts `product_id` and `quantity` in
the form-encoded request body, but the server route declares them as bare
scalar parameters, which FastAPI binds from the query string; the body
request therefore fails validation with 422 — a status outside the
claimed {200, 404, 409, 5xx} — and no stock is touched. -/
theorem C4_body_request_rejected_with_422 :
    reserve_endpoint (.ok (some "alice")) (client_reserve_request 42 1) true exStock
      = (422, exStock, []) := rfl

/-- C5 fails on the code: `delete_order` filters only on the order id —
the authenticated `user` is never compared with the row's `username` — so
a different authenticated user (`bob`) deleting order 1 owned by `alice`
succeeds with 200 and the row is gone. -/
theorem C5_nonowner_delete_destroys_order :
    delete_order (.ok (some "bob")) 1 exOrders = (200, { nextId := 2, orders := [] }) := by
  decide

/-- C6: a bearer token on which the decoder raises (malformed, invalid
signature, expired) or whose payload lacks a subject claim makes every
protected operation fail with 401 and leave everything untouched: order
placement makes zero reservation attempts, performs no backoff sleep,
inserts no row and publishes nothing; order deletion removes no row; the
reservation endpoint leaves the stock unchanged and publishes nothing. -/
theorem C6_bad_token_401_no_side_effects (decodeRes : DecodeResult)
    (h : decodeRes = .error () ∨ decodeRes = .ok none)
    (env : Nat → Attempt) (insertOk publishOk : Bool) (productname : String)
    (product_id quantity : Int) (st : OrderState) (order_id : Nat)
    (req : ReserveRequest) (pub : Bool) (stock : Int → Option Int) :
    create_order decodeRes env insertOk publishOk productname product_id quantity st
      = ⟨401, st, 0, [], [], false⟩ ∧
    delete_order decodeRes order_id st = (401, st) ∧
    reserve_endpoint decodeRes req pub stock = (401, stock, []) := by
  rcases h with h | h <;> subst h <;> exact ⟨rfl, rfl, rfl⟩

/-- Witness for C6 at a concrete rejected token (`JWTError` raised) and
concrete states. -/
theorem C6_bad_token_401_no_side_effects_witness :
    create_order (.error ()) (fun _ => .resp 200) true true "Widget" 42 1 exOrders
      = ⟨401, exOrders, 0, [], [], false⟩ ∧
    delete_order (.error ()) 1 exOrders = (401, exOrders) ∧
    reserve_endpoint (.error ()) (client_reserve_request 42 1) true exStock
      = (401, exStock, []) :=
  C6_bad_token_401_no_side_effects (.error ()) (Or.inl rfl) (fun _ => .resp 200)
    true true "Widget" 42 1 exOrders 1 (client_reserve_request 42 1) true exStock

/-- C8: event-publish failures are swallowed and never change the
caller-visible outcome. For `POST /orders` (reservation returned success,
insert succeeded): the response is 200 and the row is committed for
either value of `publishOk`; with `publishOk = false` no event reaches
the bus and only a warning is logged. For `POST /inventory/reserve` with
sufficient stock: the response is 200 and the decrement is committed for
either value of `publishOk`; with `publishOk = false` no event reaches
the bus. -/
theorem C8_publish_failure_swallowed (env : Nat → Attempt) (u productname : String)
    (product_id quantity pid qty q : Int) (st : OrderState)
    (stock : Int → Option Int) (hu : u ≠ "")
    (hs : (reserve_inventory_client env).1 = .success)
    (hstock : stock pid = some q) (hle : qty ≤ q) :
    (∀ publishOk,
      (create_order (.ok (some u)) env true publishOk productname product_id quantity
        st).httpStatus = 200 ∧
      (create_order (.ok (some u)) env true publishOk productname product_id quantity
        st).state = (insert_order st productname product_id quantity u).2) ∧
    (create_order (.ok (some u)) env true false productname product_id quantity
      st).events = [] ∧
    (create_order (.ok (some u)) env true false productname product_id quantity
      st).publishWarned = true ∧
    (∀ publishOk,
      (reserve_endpoint (.ok (some u)) ⟨some pid, some qty, none, none⟩ publishOk
        stock).1 = 200 ∧
      (reserve_endpoint (.ok (some u)) ⟨some pid, some qty, none, none⟩ publishOk
        stock).2.1 = (reserve_inventory_server stock pid qty).2) ∧
    (reserve_endpoint (.ok (some u)) ⟨some pid, some qty, none, none⟩ false
      stock).2.2 = [] := by
  have hmain : ∀ publishOk,
      create_order (.ok (some u)) env true publishOk productname product_id quantity st
        = ⟨200, (insert_order st productname product_id quantity u).2,
            (reserve_inventory_client env).2.2, (reserve_inventory_client env).2.1,
            (publish_order_event publishOk u product_id quantity).1,
            (publish_order_event publishOk u product_id quantity).2⟩ := by
    intro publishOk
    unfold create_order
    rcases hr : reserve_inventory_client env with ⟨o, sl, n⟩
    rw [hr] at hs
    simp only at hs
    subst hs
    simp [get_current_user]
  have hres : reserve_inventory_server stock pid qty =
      (.reserved, fun p => if p = pid then some (q - qty) else stock p) := by
    unfold reserve_inventory_server
    rw [hstock]
    simp [not_lt.mpr hle]
  have hserver : ∀ publishOk,
      reserve_endpoint (.ok (some u)) ⟨some pid, some qty, none, none⟩ publishOk stock
        = (200, (reserve_inventory_server stock pid qty).2,
            if publishOk then [.inventoryReserved pid qty] else []) := by
    intro publishOk
    unfold reserve_endpoint get_current_user_product
    simp only [hu, if_false]
    rw [hres]
  refine ⟨fun p => by rw [hmain p]; exact ⟨rfl, rfl⟩, ?_, ?_,
    fun p => by rw [hserver p]; exact ⟨rfl, rfl⟩, ?_⟩
  · rw [hmain false]; rfl
  · rw [hmain false]; rfl
  · rw [hserver false]; rfl

/-- Witness for C8: all attempts answer 200, user alice, product 42 with
stock 5, order for quantity 3; with the broker down the order is still
placed (200, row committed) and the reservation still answers 200, with
no event delivered in either service. -/
theorem C8_publish_failure_swallowed_witness :
    (create_order (.ok (some "alice")) (fun _ => .resp 200) true false "Widget" 42 3
      exOrders).httpStatus = 200 ∧
    (create_order (.ok (some "alice")) (fun _ => .resp 200) true false "Widget" 42 3
      exOrders).events = [] ∧
    (reserve_endpoint (.ok (some "alice")) ⟨some 42, some 3, none, none⟩ false
      exStock).1 = 200 ∧
    (reserve_endpoint (.ok (some "alice")) ⟨some 42, some 3, none, none⟩ false
      exStock).2.2 = [] := by
  have h := C8_publish_failure_swallowed (fun _ => .resp 200) "alice" "Widget" 42 3 42 3 5
    exOrders exStock (by decide) (by decide) (by decide) (by decide)
  exact ⟨(h.1 false).1, h.2.1, (h.2.2.2.1 false).1, h.2.2.2.2⟩

/-- Helper: if the composed reservation loop returns success from a state
where either an exception is already recorded or attempts remain, then the
server committed exactly one check-then-decrement on the entering stock,
and the loop's final stock is the server's post-decrement stock (failed
attempts never touch the stock). -/
theorem sysLoop_success_decrements (net : Nat → Bool) (pid qty : Int) :
    ∀ (ds : List Nat) (i : Nat) (lastExc : Bool) (stock : Int → Option Int),
      (lastExc = true ∨ ds ≠ []) →
      (sysReserveLoop net pid qty i ds lastExc stock).1 = .success →
      (reserve_inventory_server stock pid qty).1 = .reserved ∧
      (sysReserveLoop net pid qty i ds lastExc stock).2.1
        = (reserve_inventory_server stock pid qty).2 := by
  intro ds
  induction ds with
  | nil =>
    intro i lastExc stock hne h
    rcases hne with hne | hne
    · subst hne
      simp [sysReserveLoop] at h
    · exact absurd rfl hne
  | cons d ds ih =>
    intro i lastExc stock _hne h
    unfold sysReserveLoop at h ⊢
    by_cases hn : net i = true
    · rw [if_pos hn] at h ⊢
      rcases hr : reserve_inventory_server stock pid qty with ⟨o, st'⟩
      rw [hr] at h
      cases o with
      | reserved => exact ⟨rfl, rfl⟩
      | notFound =>
        have hsub := ih (i + 1) true stock (Or.inl rfl) h
        rw [hr] at hsub
        exact absurd hsub.1 (by simp)
      | insufficientStock =>
        have hsub := ih (i + 1) true stock (Or.inl rfl) h
        rw [hr] at hsub
        exact absurd hsub.1 (by simp)
    · rw [if_neg hn] at h ⊢
      exact ih (i + 1) true stock (Or.inl rfl) h

/-- C7: when the reservation call succeeded (composed client/server run
with the arguments assumed to reach the server) and the order insert then
fails, `POST /orders` answers 500, no order row exists, no event is
published, and the final stock is exactly the post-reservation stock —
decremented by the reserved quantity at the reserved product and
untouched elsewhere; no compensating release happens. -/
theorem C7_insert_failure_no_compensation (u productname : String)
    (net : Nat → Bool) (publishOk : Bool) (pid qty : Int)
    (stock : Int → Option Int) (st : OrderState)
    (hsucc : (sys_reserve net stock pid qty).1 = .success) :
    (create_order_sys (.ok (some u)) net false publishOk productname pid qty stock
      st).1 = 500 ∧
    (create_order_sys (.ok (some u)) net false publishOk productname pid qty stock
      st).2.2.1 = st ∧
    (create_order_sys (.ok (some u)) net false publishOk productname pid qty stock
      st).2.2.2 = [] ∧
    (create_order_sys (.ok (some u)) net false publishOk productname pid qty stock
      st).2.1 = (sys_reserve net stock pid qty).2.1 ∧
    ∃ q, stock pid = some q ∧ qty ≤ q ∧
      (create_order_sys (.ok (some u)) net false publishOk productname pid qty stock
        st).2.1 pid = some (q - qty) ∧
      ∀ p, p ≠ pid →
        (create_order_sys (.ok (some u)) net false publishOk productname pid qty stock
          st).2.1 p = stock p := by
  have hdec := sysLoop_success_decrements net pid qty [200, 500, 1000] 0 false stock
    (Or.inr (by simp)) hsucc
  have hdec2 : (sys_reserve net stock pid qty).2.1 = (reserve_inventory_server stock pid qty).2 :=
    hdec.2
  have hex : ∃ q, stock pid = some q ∧ qty ≤ q := by
    rcases hq : stock pid with _ | q
    · exfalso
      have h1 := hdec.1
      unfold reserve_inventory_server at h1
      rw [hq] at h1
      simp at h1
    · refine ⟨q, rfl, ?_⟩
      by_contra hlt
      push_neg at hlt
      have h1 := hdec.1
      unfold reserve_inventory_server at h1
      rw [hq] at h1
      simp [hlt] at h1
  obtain ⟨q, hq, hle⟩ := hex
  have hserver : reserve_inventory_server stock pid qty =
      (.reserved, fun p => if p = pid then some (q - qty) else stock p) := by
    unfold reserve_inventory_server
    rw [hq]
    simp [not_lt.mpr hle]
  have hco : create_order_sys (.ok (some u)) net false publishOk productname pid qty stock st
      = (500, (sys_reserve net stock pid qty).2.1, st, []) := by
    unfold create_order_sys
    rcases hrr : sys_reserve net stock pid qty with ⟨o, stock', sl⟩
    have ho : o = .success := hsucc.symm.trans (by rw [hrr]) |>.symm
    subst ho
    simp [get_current_user]
  refine ⟨by rw [hco], by rw [hco], by rw [hco], by rw [hco], q, hq, hle, ?_, ?_⟩
  · rw [hco]
    show (sys_reserve net stock pid qty).2.1 pid = some (q - qty)
    rw [hdec2, hserver]
    simp
  · intro p hp
    rw [hco]
    show (sys_reserve net stock pid qty).2.1 p = stock p
    rw [hdec2, hserver]
    simp [hp]

/-- Witness for C7: all attempts delivered, stock of 42 is 5, reserve 3
for alice, insert fails — response 500, order table unchanged, stock of
42 left at 2. -/
theorem C7_insert_failure_no_compensation_witness :
    (sys_reserve (fun _ => true) exStock 42 3).1 = .success ∧
    (create_order_sys (.ok (some "alice")) (fun _ => true) false true "Widget" 42 3
      exStock exOrders).1 = 500 ∧
    (create_order_sys (.ok (some "alice")) (fun _ => true) false true "Widget" 42 3
      exStock exOrders).2.2.1 = exOrders ∧
    (create_order_sys (.ok (some "alice")) (fun _ => true) false true "Widget" 42 3
      exStock exOrders).2.1 42 = some 2 := by
  have h := C7_insert_failure_no_compensation "alice" "Widget" (fun _ => true) true 42 3
    exStock exOrders (by decide)
  refine ⟨by decide, h.1, h.2.1, ?_⟩
  obtain ⟨q, hq, hle, hpid, _⟩ := h.2.2.2.2
  have hq5 : q = 5 := Option.some.inj (hq.symm.trans (by decide))
  subst hq5
  exact hpid.trans (by decide)

/-- Helper: `create_order` either leaves the orders table alone or
appends via `insert_order` for the authenticated user. -/
theorem create_order_state_cases (d : DecodeResult) (env : Nat → Attempt)
    (insertOk publishOk : Bool) (productname : String) (product_id quantity : Int)
    (st : OrderState) :
    (create_order d env insertOk publishOk productname product_id quantity st).state = st ∨
    ∃ user, (create_order d env insertOk publishOk productname product_id quantity st).state
      = (insert_order st productname product_id quantity user).2 := by
  unfold create_order
  rcases d with _ | u
  · exact Or.inl rfl
  · rcases u with _ | name
    · exact Or.inl rfl
    · rcases hr : reserve_inventory_client env with ⟨o, sl, n⟩
      cases o with
      | httpError s => exact Or.inl (by simp [get_current_user, hr])
      | success =>
        cases insertOk with
        | false => exact Or.inl (by simp [get_current_user, hr])
        | true => exact Or.inr ⟨name, by simp [get_current_user, hr]⟩

/-- Helper: `delete_order` either leaves the orders table alone or keeps
exactly the rows whose id differs from the requested one. -/
theorem delete_order_state_cases (d : DecodeResult) (order_id : Nat) (st : OrderState) :
    (delete_order d order_id st).2 = st ∨
    (delete_order d order_id st).2
      = { st with orders := st.orders.filter (fun o => o.id ≠ order_id) } := by
  rcases d with _ | u
  · exact Or.inl rfl
  · rcases u with _ | name
    · exact Or.inl rfl
    · have hred : delete_order (.ok (some name)) order_id st
          = (if (st.orders.filter (fun o => o.id ≠ order_id)).length = st.orders.length
             then (404, st)
             else (200, { st with orders := st.orders.filter (fun o => o.id ≠ order_id) })) := by
        rfl
      rw [hred]
      split
      · exact Or.inl rfl
      · exact Or.inr rfl

/-- Helper: each order-service operation preserves well-formedness of the
table and the all-rows-CONFIRMED invariant. -/
theorem applyOp_preserves_inv (st : OrderState) (op : OrderOp) (hwf : st.Wf)
    (hconf : ∀ o ∈ st.orders, o.rowStatus = "CONFIRMED") :
    (applyOp st op).Wf ∧ ∀ o ∈ (applyOp st op).orders, o.rowStatus = "CONFIRMED" := by
  cases op with
  | create d env iok pok pn pid qty =>
    have happ : applyOp st (.create d env iok pok pn pid qty)
        = (create_order d env iok pok pn pid qty st).state := rfl
    rcases create_order_state_cases d env iok pok pn pid qty st with hcs | ⟨user, hcs⟩
    · rw [happ, hcs]; exact ⟨hwf, hconf⟩
    · rw [happ, hcs]
      unfold insert_order
      constructor
      · constructor
        · intro o ho
          simp only [List.mem_append, List.mem_singleton] at ho
          rcases ho with ho | ho
          · exact Nat.lt_succ_of_lt (hwf.1 o ho)
          · subst ho; exact Nat.lt_succ_self _
        · rw [List.pairwise_append]
          refine ⟨hwf.2, List.pairwise_singleton _ _, ?_⟩
          intro a ha b hb
          simp only [List.mem_singleton] at hb
          subst hb
          exact Nat.ne_of_lt (hwf.1 a ha)
      · intro o ho
        simp only [List.mem_append, List.mem_singleton] at ho
        rcases ho with ho | ho
        · exact hconf o ho
        · subst ho; rfl
  | delete d oid =>
    have happ : applyOp st (.delete d oid) = (delete_order d oid st).2 := rfl
    rcases delete_order_state_cases d oid st with hcs | hcs
    · rw [happ, hcs]; exact ⟨hwf, hconf⟩
    · rw [happ, hcs]
      refine ⟨⟨?_, ?_⟩, ?_⟩
      · intro o ho
        exact hwf.1 o (List.mem_of_mem_filter ho)
      · exact hwf.2.sublist (List.filter_sublist _)
      · intro o ho
        exact hconf o (List.mem_of_mem_filter ho)

/-- Helper: the invariant holds along any operation sequence. -/
theorem runOps_inv (ops : List OrderOp) :
    ∀ st : OrderState, st.Wf → (∀ o ∈ st.orders, o.rowStatus = "CONFIRMED") →
      (runOps st ops).Wf ∧ ∀ o ∈ (runOps st ops).orders, o.rowStatus = "CONFIRMED" := by
  induction ops with
  | nil => intro st hwf hc; exact ⟨hwf, hc⟩
  | cons op ops ih =>
    intro st hwf hc
    have h := applyOp_preserves_inv st op hwf hc
    exact ih (applyOp st op) h.1 h.2

/-- Helper: in a table with pairwise-distinct ids, two members sharing an
id are the same row. -/
theorem mem_id_unique (l : List OrderRow)
    (hp : l.Pairwise (fun a b => a.id ≠ b.id)) (o o' : OrderRow)
    (ho : o ∈ l) (ho' : o' ∈ l) (hid : o'.id = o.id) : o' = o := by
  by_contra hne
  have hsym : Symmetric (fun a b : OrderRow => a.id ≠ b.id) := by
    intro a b h e
    exact h e.symm
  exact hp.forall hsym ho' ho hne hid

/-- Helper: no operation rewrites an existing row — a row of the next
state carrying the id of a current row is that row, unchanged. -/
theorem applyOp_no_mutation (st : OrderState) (op : OrderOp) (hwf : st.Wf)
    (o o' : OrderRow) (ho : o ∈ st.orders) (ho' : o' ∈ (applyOp st op).orders)
    (hid : o'.id = o.id) : o' = o := by
  cases op with
  | create d env iok pok pn pid qty =>
    have happ : applyOp st (.create d env iok pok pn pid qty)
        = (create_order d env iok pok pn pid qty st).state := rfl
    rcases create_order_state_cases d env iok pok pn pid qty st with hcs | ⟨user, hcs⟩
    · rw [happ, hcs] at ho'
      exact mem_id_unique st.orders hwf.2 o o' ho ho' hid
    · rw [happ, hcs] at ho'
      unfold insert_order at ho'
      simp only [List.mem_append, List.mem_singleton] at ho'
      rcases ho' with ho' | ho'
      · exact mem_id_unique st.orders hwf.2 o o' ho ho' hid
      · exfalso
        have hlt : o.id < st.nextId := hwf.1 o ho
        have : o'.id = st.nextId := by rw [ho']
        omega
  | delete d oid =>
    have happ : applyOp st (.delete d oid) = (delete_order d oid st).2 := rfl
    rcases delete_order_state_cases d oid st with hcs | hcs
    · rw [happ, hcs] at ho'
      exact mem_id_unique st.orders hwf.2 o o' ho ho' hid
    · rw [happ, hcs] at ho'
      exact mem_id_unique st.orders hwf.2 o o' ho (List.mem_of_mem_filter ho') hid

/-- C9: starting from the empty table, after any sequence of
order-service operations every order row has status `CONFIRMED` (no other
status is reachable), and no further operation mutates an existing row —
any row of the successor state carrying an existing row's id is that row
unchanged (rows are only ever appended whole or deleted whole). -/
theorem C9_orders_confirmed_and_immutable (ops : List OrderOp) :
    (∀ o ∈ (runOps initOrderState ops).orders, o.rowStatus = "CONFIRMED") ∧
    ∀ (op : OrderOp) (o o' : OrderRow), o ∈ (runOps initOrderState ops).orders →
      o' ∈ (applyOp (runOps initOrderState ops) op).orders → o'.id = o.id → o' = o := by
  have hinit : initOrderState.Wf := by
    constructor
    · intro o ho; simp [initOrderState] at ho
    · simp [initOrderState]
  have hconf : ∀ o ∈ initOrderState.orders, o.rowStatus = "CONFIRMED" := by
    intro o ho; simp [initOrderState] at ho
  have h := runOps_inv ops initOrderState hinit hconf
  exact ⟨h.2, fun op o o' ho ho' hid => applyOp_no_mutation _ op h.1 o o' ho ho' hid⟩

/-- Witness for C9: after one successful order placement by alice the
single row (id 0) has status `CONFIRMED`, and a subsequent delete of a
different id leaves that row intact. -/
theorem C9_orders_confirmed_and_immutable_witness :
    ({ id := 0, productname := "Widget", product_id := 42, quantity := 1,
       username := "alice", rowStatus := "CONFIRMED" } : OrderRow).rowStatus
      = "CONFIRMED" ∧
    ({ id := 0, productname := "Widget", product_id := 42, quantity := 1,
       username := "alice", rowStatus := "CONFIRMED" } : OrderRow)
      = { id := 0, productname := "Widget", product_id := 42, quantity := 1,
          username := "alice", rowStatus := "CONFIRMED" } := by
  have h := C9_orders_confirmed_and_immutable
    [.create (.ok (some "alice")) (fun _ => .resp 200) true true "Widget" 42 1]
  exact ⟨h.1 _ (by decide),
    h.2 (.delete (.ok (some "alice")) 99) _ _ (by decide) (by decide) (by decide)⟩
